import Mathlib

/-
Verification of the sensemaking-to-decision pipeline of the
vincent-plays-polymarket repository.

The TypeScript core is shallowly embedded below.  JavaScript numbers are
modelled as exact rationals, except for the engagement weight, which the
source computes with a base-2 logarithm and which is therefore modelled
over the reals.  External collaborators (the Anthropic messages API, the
Polymarket market feed, the system clock, the random id generator) are
modelled as explicit inputs: each embedded operation takes the already
received collaborator response as an argument, and a fallible JSON parse
of that response is represented by an Except value whose error case is
the exception thrown by JSON.parse.
-/

/-- JavaScript Math.round: rounds half away from zero toward positive
infinity, that is, floor of x + 1/2. -/
def jsRound (x : ℚ) : ℚ := ((⌊x + 1/2⌋ : ℤ) : ℚ)

/-- Stand-in for JavaScript number-to-string conversion (template literals
and toFixed in the source).  No claim below depends on the rendered digits,
only on which branch produced a string or whether a field is set. -/
def numToString (q : ℚ) : String := toString q

/-- JavaScript String.prototype.includes.  The splitOn encoding: a nonempty
needle occurs in the haystack exactly when splitting on it yields more than
one piece; the empty needle is always contained. -/
def jsIncludes (s t : String) : Bool :=
  if t = "" then true else (s.splitOn t).length != 1

/-- JavaScript array indexing arr[i] with a possibly out-of-range or
negative index: an in-range index yields the element, anything else yields
undefined, modelled as none. -/
def jsElem {α : Type} (l : List α) (i : ℤ) : Option α :=
  if h : 0 ≤ i ∧ i.toNat < l.length then some (l.get ⟨i.toNat, h.2⟩) else none

/-- Collect a list of possibly-undefined values: all of them if every slot
is defined, none as soon as one slot is undefined. -/
def allOrNone {α : Type} : List (Option α) → Option (List α)
  | [] => some []
  | a :: l =>
    match a, allOrNone l with
    | some x, some xs => some (x :: xs)
    | _, _ => none

/-- A JavaScript map whose body can throw: the first thrown error aborts
the whole map. -/
def mapOrThrow {α β ε : Type} (f : α → Except ε β) : List α → Except ε (List β)
  | [] => .ok []
  | a :: l =>
    match f a with
    | .error e => .error e
    | .ok b =>
      match mapOrThrow f l with
      | .error e => .error e
      | .ok bs => .ok (b :: bs)

-- ---- Data model (src/types/index.ts) ----

/-- Engagement counts of a tweet. -/
structure Engagement where
  likes : ℚ
  retweets : ℚ
  replies : ℚ
  quoteTweets : ℚ

/-- A parent or quoted tweet in the conversation context. -/
structure ConversationTweet where
  tweetId : String
  text : String
  authorHandle : String
  authorFollowers : ℚ
  urls : List String
  engagement : Engagement
  timestamp : ℚ

/-- Author identity of a mention. -/
structure TwitterUser where
  id : String
  handle : String
  followers : ℚ
  accountAgeDays : ℚ

/-- An inbound social mention.  conversationContext is ordered root first,
with the closest parent last. -/
structure RawMention where
  tweetId : String
  text : String
  user : TwitterUser
  urls : List String
  engagement : Engagement
  timestamp : ℚ
  inReplyToId : Option String
  conversationContext : List ConversationTweet
  quotedTweet : Option ConversationTweet

/-- A classified interpretation of a RawMention.  The weight is real-valued
because the source computes it with a base-2 logarithm.  The signal type and
urgency are strings at runtime (the source casts untyped collaborator JSON
into these fields). -/
structure EnrichedSignal where
  id : String
  raw : RawMention
  signalType : String
  coreClaim : String
  urgency : String
  topics : List String
  corroboration : List String
  weight : ℝ
  processedAt : ℚ

/-- Sentiment of a topic cluster. -/
structure Sentiment where
  direction : String
  confidence : ℚ

/-- A group of signals sharing a narrative. -/
structure TopicCluster where
  id : String
  name : String
  signals : List EnrichedSignal
  signalCount : ℚ
  avgEngagement : ℚ
  sentiment : Sentiment
  firstSeenAt : ℚ
  lastUpdatedAt : ℚ

/-- A tradable Polymarket instrument. -/
structure PolymarketMarket where
  conditionId : String
  slug : String
  question : String
  outcomes : List String
  outcomePrices : List ℚ
  volume : ℚ
  liquidity : ℚ
  endDate : String
  active : Bool

/-- A proposed mapping of one cluster to one market. -/
structure EdgeOpportunity where
  cluster : TopicCluster
  market : PolymarketMarket
  direction : String
  signalImpliedProbability : ℚ
  currentMarketPrice : ℚ
  priceDiscrepancy : ℚ
  edgeScore : ℚ
  reasoningChain : String

/-- The terminal decision record.  The decision is a string at runtime: the
source assigns untyped collaborator output into this field. -/
structure TradeOrder where
  decision : String
  market : PolymarketMarket
  direction : String
  size : ℚ
  entryPrice : ℚ
  stopLoss : ℚ
  takeProfit : ℚ
  edgeScore : ℚ
  reasoning : String
  contributingSignals : List EnrichedSignal
  watchCondition : Option String
  passReason : Option String

/-- An open position. -/
structure Position where
  marketId : String
  marketQuestion : String
  direction : String
  entryPrice : ℚ
  currentPrice : ℚ
  size : ℚ
  pnl : ℚ
  pnlPercent : ℚ
  enteredAt : ℚ
  theme : String

/-- A portfolio snapshot used as decision input. -/
structure PortfolioState where
  bankroll : ℚ
  startingBankroll : ℚ
  cashAvailable : ℚ
  positions : List Position
  totalPnl : ℚ
  totalPnlPercent : ℚ
  dayNumber : ℚ
  tradesEntered : ℚ
  tradesExited : ℚ
  winCount : ℚ
  lossCount : ℚ

/-- Campaign configuration. -/
structure CampaignConfig where
  bankroll : ℚ
  twitterHandle : String
  basePositionPct : ℚ
  maxPositionPct : ℚ
  minPositionUsd : ℚ
  maxOpenPositions : ℚ
  maxThemeExposurePct : ℚ
  cashReservePct : ℚ
  drawdownBreakerPct : ℚ
  takeProfitMultiple : ℚ
  stopLossPercent : ℚ
  minSignalsToAct : ℚ
  minEdgeScore : ℚ
  minAccountAgeDays : ℚ
  minFollowers : ℚ
  maxSignalsPerUserPerDay : ℚ
  pollIntervalSeconds : ℚ

/-- DEFAULT_CONFIG from src/types/index.ts. -/
def DEFAULT_CONFIG : CampaignConfig where
  bankroll := 10000
  twitterHandle := "VincentPlays"
  basePositionPct := 0.02
  maxPositionPct := 0.05
  minPositionUsd := 50
  maxOpenPositions := 10
  maxThemeExposurePct := 0.15
  cashReservePct := 0.20
  drawdownBreakerPct := 0.50
  takeProfitMultiple := 2.0
  stopLossPercent := 0.40
  minSignalsToAct := 5
  minEdgeScore := 0.3
  minAccountAgeDays := 30
  minFollowers := 50
  maxSignalsPerUserPerDay := 5
  pollIntervalSeconds := 60

-- ---- Position sizing and constraints (src/strategy/sizing.ts) ----

/-- Conviction tier derived from the edge score. -/
inductive ConvictionLevel where
  | high
  | moderate
  | low

/-- getConvictionLevel from sizing.ts. -/
def getConvictionLevel (edgeScore : ℚ) : ConvictionLevel :=
  if edgeScore > 0.8 then .high
  else if edgeScore > 0.5 then .moderate
  else .low

/-- The switch block of calculatePositionSize: base percent scaled by
conviction. -/
def convictionPct (cfg : CampaignConfig) (edgeScore : ℚ) : ℚ :=
  match getConvictionLevel edgeScore with
  | .high => cfg.basePositionPct * 2
  | .moderate => cfg.basePositionPct
  | .low => cfg.basePositionPct * 0.5

/-- calculatePositionSize from sizing.ts. -/
def calculatePositionSize (opp : EdgeOpportunity) (p : PortfolioState)
    (cfg : CampaignConfig) : ℚ :=
  let pct := convictionPct cfg opp.edgeScore
  let size0 := p.bankroll * pct
  let size1 := min size0 (p.bankroll * cfg.maxPositionPct)
  if size1 < cfg.minPositionUsd then 0
  else
    let minCash := p.bankroll * cfg.cashReservePct
    let maxSpend := p.cashAvailable - minCash
    if maxSpend < cfg.minPositionUsd then 0
    else jsRound (min size1 maxSpend)

/-- Result of checkPortfolioConstraints. -/
structure ConstraintCheck where
  allowed : Bool
  reason : Option String

/-- checkPortfolioConstraints from sizing.ts. -/
def checkPortfolioConstraints (opp : EdgeOpportunity) (p : PortfolioState)
    (cfg : CampaignConfig) : ConstraintCheck :=
  if ((p.positions.length : ℚ)) ≥ cfg.maxOpenPositions then
    { allowed := false,
      reason := some ("Already at max " ++ numToString cfg.maxOpenPositions
        ++ " open positions") }
  else if p.bankroll ≤ cfg.bankroll * cfg.drawdownBreakerPct then
    { allowed := false,
      reason := some ("Drawdown breaker active: bankroll at $"
        ++ numToString p.bankroll) }
  else
    let marketTheme := opp.market.question.toLower
    let firstWord := (marketTheme.splitOn " ").headD ""
    let themeExposure :=
      (p.positions.filter (fun q => jsIncludes q.marketQuestion.toLower firstWord)).foldl
        (fun sum q => sum + q.size) 0
    if themeExposure > p.bankroll * cfg.maxThemeExposurePct then
      { allowed := false,
        reason := some ("Theme exposure too high for \"" ++ firstWord ++ "\"") }
    else if p.positions.any (fun q => q.marketId == opp.market.conditionId) then
      { allowed := false, reason := some "Already have a position in this market" }
    else
      { allowed := true, reason := none }

/-- Stop loss and take profit prices. -/
structure ExitLevels where
  stopLoss : ℚ
  takeProfit : ℚ

/-- calculateExitLevels from sizing.ts.  Rational division models JavaScript
division; the division by takeProfitMultiple is only relied on under the
hypothesis that the multiple is nonzero. -/
def calculateExitLevels (entryPrice : ℚ) (direction : String)
    (cfg : CampaignConfig) : ExitLevels :=
  if direction = "YES" then
    { stopLoss := max 0.01 (entryPrice * (1 - cfg.stopLossPercent)),
      takeProfit := min 0.99 (entryPrice * cfg.takeProfitMultiple) }
  else
    { stopLoss := min 0.99 (entryPrice * (1 + cfg.stopLossPercent)),
      takeProfit := max 0.01 (entryPrice / cfg.takeProfitMultiple) }

-- ---- Weighting utility (src/utils/weight.ts) ----

/-- The linear engagement score likes + 2 * retweets + 3 * quoteTweets that
both engagementWeight and the best-source ranking in the enricher use. -/
def engagementRaw (e : Engagement) : ℚ :=
  e.likes + 2 * e.retweets + 3 * e.quoteTweets

/-- engagementWeight from weight.ts: 1 + log2 of (1 + raw score). -/
noncomputable def engagementWeight (e : Engagement) : ℝ :=
  1 + Real.logb 2 (1 + (engagementRaw e : ℝ))

-- ---- Signal Enricher (src/ingestion/enricher.ts) ----

/-- The structured classification returned by the enrichment collaborator
after safeParseLLMJson.  A parse failure is the default value with is_noise
true and signal_type noise, which is an instance of this record. -/
structure EnrichResp where
  is_noise : Bool
  signal_type : String
  core_claim : String
  urgency : String
  topics : Option (List String)

/-- The candidate engagement sources other than the mention itself: the
engagement of the closest parent in the conversation context (its last
element) if any, then the engagement of the quoted tweet if any.  This is
the filter-Boolean step of enrichMention, minus the always-present head. -/
def extraEngagementSources (m : RawMention) : List Engagement :=
  (m.conversationContext.getLast?.map (fun t => t.engagement)).toList
    ++ (m.quotedTweet.map (fun t => t.engagement)).toList

/-- All candidate engagement sources in source order: own, parent, quoted. -/
def engagementSources (m : RawMention) : List Engagement :=
  m.engagement :: extraEngagementSources m

/-- The reduce step of enrichMention: keep the engagement with the strictly
higher raw score, keeping the earlier one on ties. -/
def pickBest (a : Engagement) (l : List Engagement) : Engagement :=
  l.foldl (fun best e => if engagementRaw best < engagementRaw e then e else best) a

/-- The engagement source enrichMention bases the weight on. -/
def bestEngagement (m : RawMention) : Engagement :=
  pickBest m.engagement (extraEngagementSources m)

/-- enrichMention from enricher.ts, with the already parsed collaborator
classification and the current time as explicit inputs and the random id
generator modelled as a constant (no claim inspects ids).  Returns none for
a noise classification. -/
noncomputable def enrichMention (m : RawMention) (parsed : EnrichResp)
    (now : ℚ) : Option EnrichedSignal :=
  if parsed.is_noise = true ∨ parsed.signal_type = "noise" then none
  else
    some { id := "sig",
           raw := m,
           signalType := parsed.signal_type,
           coreClaim := parsed.core_claim,
           urgency := parsed.urgency,
           topics := parsed.topics.getD [],
           corroboration := [],
           weight := engagementWeight (bestEngagement m),
           processedAt := now }

-- ---- Topic Clusterer (src/sensemaking/clustering.ts) ----

/-- One cluster as returned by the grouping collaborator. -/
structure RawCluster where
  name : String
  signal_indices : Option (List ℤ)
  sentiment_direction : String
  sentiment_confidence : ℚ

/-- The grouping collaborator response after JSON.parse. -/
structure ClustersResp where
  clusters : Option (List RawCluster)

/-- The per-cluster membership array of clusterSignals: indices at least the
signal count are filtered out, the rest are looked up, where a negative
index yields undefined (none), exactly as JavaScript array indexing does. -/
def memberSlots (signals : List EnrichedSignal) (indices : List ℤ) :
    List (Option EnrichedSignal) :=
  (indices.filter (fun i => i < (signals.length : ℤ))).map (jsElem signals)

/-- The resolved membership of one collaborator cluster: all slots if every
one is defined, none if some slot is undefined (in which case the engagement
reduction of the source throws a TypeError). -/
def resolvedMembers (signals : List EnrichedSignal) (c : RawCluster) :
    Option (List EnrichedSignal) :=
  allOrNone (memberSlots signals (c.signal_indices.getD []))

/-- The body of the map over collaborator clusters in clusterSignals.  An
undefined member makes the engagement reduction throw, modelled as the
error case. -/
def buildCluster (signals : List EnrichedSignal) (now : ℚ) (c : RawCluster) :
    Except String TopicCluster :=
  match resolvedMembers signals c with
  | none => .error "TypeError: cannot read engagement of undefined"
  | some members =>
    let totalEngagement := members.foldl
      (fun sum s => sum + (s.raw.engagement.likes + s.raw.engagement.retweets
        + s.raw.engagement.replies + s.raw.engagement.quoteTweets)) 0
    let timestamps := members.map (fun s => s.raw.timestamp)
    .ok { id := "clst",
          name := c.name,
          signals := members,
          signalCount := (members.length : ℚ),
          avgEngagement := if members.length > 0
            then totalEngagement / (members.length : ℚ) else 0,
          sentiment := { direction := c.sentiment_direction,
                         confidence := c.sentiment_confidence },
          firstSeenAt := (match timestamps with
            | [] => now
            | t :: ts => ts.foldl min t),
          lastUpdatedAt := now }

/-- clusterSignals from clustering.ts, with the collaborator response as an
explicit input: the error case of resp is a JSON.parse exception, which the
source does not catch, and a thrown TypeError while building one cluster
aborts the whole map.  The fewer-than-two-signals check precedes the
collaborator call in the source, so it also precedes the parse here. -/
def clusterSignals (signals : List EnrichedSignal)
    (resp : Except String ClustersResp) (now : ℚ) :
    Except String (List TopicCluster) :=
  if signals.length < 2 then .ok []
  else
    match resp with
    | .error e => .error e
    | .ok parsed => mapOrThrow (buildCluster signals now) (parsed.clusters.getD [])

-- ---- Edge Scorer (src/sensemaking/edge-scorer.ts) ----

/-- One mapping as returned by the market mapping collaborator. -/
structure MarketMapping where
  market_index : ℤ
  direction : String
  signal_implied_probability : ℚ
  reasoning : String

/-- The mapping collaborator response after JSON.parse. -/
structure MappingsResp where
  mappings : Option (List MarketMapping)

/-- The outcomePrices[i] || 0.5 pattern of the source: an absent price and a
price of zero (falsy) both fall back to one half. -/
def priceOr (prices : List ℚ) (i : ℕ) : ℚ :=
  match prices.get? i with
  | none => 0.5
  | some v => if v = 0 then 0.5 else v

/-- The loop body of findEdge: none when the market index does not resolve
into the fetched top markets (the continue branch), otherwise the scored
opportunity. -/
def mkOpportunity (cluster : TopicCluster) (clusterWeight : ℚ)
    (topMarkets : List PolymarketMarket) (m : MarketMapping) :
    Option EdgeOpportunity :=
  match jsElem topMarkets m.market_index with
  | none => none
  | some market =>
    let currentPrice := if m.direction = "YES"
      then priceOr market.outcomePrices 0
      else priceOr market.outcomePrices 1
    let priceDiscrepancy := |m.signal_implied_probability - currentPrice|
    let signalStrength := min 1.0 (clusterWeight / 20)
    let timeValue :=
      if cluster.signals.any (fun s => s.urgency == "breaking") then 1.0
      else if cluster.signals.any (fun s => s.urgency == "developing") then 0.7
      else 0.4
    some { cluster := cluster,
           market := market,
           direction := m.direction,
           signalImpliedProbability := m.signal_implied_probability,
           currentMarketPrice := currentPrice,
           priceDiscrepancy := priceDiscrepancy,
           edgeScore := signalStrength * priceDiscrepancy * timeValue,
           reasoningChain := m.reasoning }

/-- findEdge from edge-scorer.ts, with the cached market list and the
mapping collaborator response as explicit inputs.  The source calls
JSON.parse directly on the collaborator text, so a parse failure (the
error case of resp) propagates as a thrown exception.  The final sort is
descending by edge score. -/
def findEdge (markets : List PolymarketMarket) (cluster : TopicCluster)
    (clusterWeight : ℚ) (resp : Except String MappingsResp) :
    Except String (List EdgeOpportunity) :=
  let topMarkets := markets.take 50
  match resp with
  | .error e => .error e
  | .ok parsed =>
    let opportunities := (parsed.mappings.getD []).filterMap
      (mkOpportunity cluster clusterWeight topMarkets)
    .ok (opportunities.mergeSort (fun a b => b.edgeScore ≤ a.edgeScore))

-- ---- Sanity Checker / Decision Engine (src/strategy/sanity-check.ts) ----

/-- The arbitration collaborator response after safeParseLLMJson.  A parse
failure is the default with decision PASS, which is an instance of this
record (decision is an arbitrary runtime string). -/
structure ArbResp where
  decision : String
  reasoning : String
  pass_reason : Option String
  watch_condition : Option String

/-- SanityChecker.evaluate from sanity-check.ts, with the parsed arbitration
collaborator response as an explicit input.  The three short-circuit checks
precede the collaborator call in the source, so on those paths the result
does not depend on parsed. -/
def SanityChecker.evaluate (cfg : CampaignConfig) (opp : EdgeOpportunity)
    (p : PortfolioState) (parsed : ArbResp) : TradeOrder :=
  let constraintCheck := checkPortfolioConstraints opp p cfg
  if ¬ constraintCheck.allowed = true then
    { decision := "PASS",
      market := opp.market,
      direction := opp.direction,
      size := 0,
      entryPrice := opp.currentMarketPrice,
      stopLoss := 0,
      takeProfit := 0,
      edgeScore := opp.edgeScore,
      reasoning := constraintCheck.reason.getD "",
      contributingSignals := opp.cluster.signals,
      watchCondition := none,
      passReason := constraintCheck.reason }
  else if opp.edgeScore < cfg.minEdgeScore then
    { decision := "PASS",
      market := opp.market,
      direction := opp.direction,
      size := 0,
      entryPrice := opp.currentMarketPrice,
      stopLoss := 0,
      takeProfit := 0,
      edgeScore := opp.edgeScore,
      reasoning := "Edge score " ++ numToString opp.edgeScore
        ++ " below minimum threshold " ++ numToString cfg.minEdgeScore,
      contributingSignals := opp.cluster.signals,
      watchCondition := none,
      passReason := some "Edge score too low" }
  else if opp.cluster.signalCount < cfg.minSignalsToAct then
    { decision := "WATCH",
      market := opp.market,
      direction := opp.direction,
      size := 0,
      entryPrice := opp.currentMarketPrice,
      stopLoss := 0,
      takeProfit := 0,
      edgeScore := opp.edgeScore,
      reasoning := "Only " ++ numToString opp.cluster.signalCount
        ++ " signals — need at least " ++ numToString cfg.minSignalsToAct
        ++ " before acting",
      contributingSignals := opp.cluster.signals,
      watchCondition := some ("Waiting for more signals on \""
        ++ opp.cluster.name ++ "\""),
      passReason := none }
  else
    let size := if parsed.decision = "TRADE"
      then calculatePositionSize opp p cfg else 0
    let exitLevels := if parsed.decision = "TRADE"
      then calculateExitLevels opp.currentMarketPrice opp.direction cfg
      else { stopLoss := 0, takeProfit := 0 }
    let finalDecision := if parsed.decision = "TRADE" ∧ size = 0
      then "PASS" else parsed.decision
    { decision := finalDecision,
      market := opp.market,
      direction := opp.direction,
      size := size,
      entryPrice := opp.currentMarketPrice,
      stopLoss := exitLevels.stopLoss,
      takeProfit := exitLevels.takeProfit,
      edgeScore := opp.edgeScore,
      reasoning := parsed.reasoning,
      contributingSignals := opp.cluster.signals,
      watchCondition := parsed.watch_condition,
      passReason := parsed.pass_reason }

-- ---- Concrete fixtures used by witnesses and counterexamples ----

/-- A low-engagement count fixture. -/
def engLow : Engagement := ⟨1, 0, 0, 0⟩

/-- A high-engagement count fixture. -/
def engHigh : Engagement := ⟨100, 10, 5, 2⟩

/-- An author fixture. -/
def user0 : TwitterUser := ⟨"u0", "alice", 1000, 400⟩

/-- A viral parent tweet fixture. -/
def parent0 : ConversationTweet :=
  ⟨"t-parent", "ETH is crashing", "bob", 50000, [], engHigh, 0⟩

/-- A mention replying to parent0 with low own engagement. -/
def mention0 : RawMention :=
  ⟨"t0", "check this out", user0, [], engLow, 10, some "t-parent", [parent0], none⟩

/-- A standalone mention fixture. -/
def mentionPlain : RawMention :=
  ⟨"t1", "hello", user0, [], engLow, 10, none, [], none⟩

/-- A non-noise classification fixture. -/
def enrichNews : EnrichResp :=
  ⟨false, "news", "ETH is crashing", "breaking", some ["ETH price"]⟩

/-- Signal fixture with core claim A. -/
def sigA : EnrichedSignal :=
  ⟨"sig", mentionPlain, "news", "A", "slow", [], [], 0, 0⟩

/-- Signal fixture with core claim B. -/
def sigB : EnrichedSignal :=
  ⟨"sig", mentionPlain, "news", "B", "slow", [], [], 0, 0⟩

/-- A market fixture. -/
def market0 : PolymarketMarket :=
  ⟨"cond0", "slug0", "Will X happen", ["Yes", "No"], [0.3, 0.7], 1000, 100,
    "2026-01-01", true⟩

/-- A three-signal cluster fixture. -/
def clusterSmall : TopicCluster :=
  ⟨"clst", "Fed pivot chatter", [sigA, sigB, sigA], 3, 0, ⟨"bullish", 0.9⟩, 0, 0⟩

/-- A five-signal cluster fixture. -/
def clusterBig : TopicCluster :=
  ⟨"clst", "Fed pivot chatter", [sigA, sigB, sigA, sigB, sigA], 5, 0,
    ⟨"bullish", 0.9⟩, 0, 0⟩

/-- Opportunity with a qualifying edge score on the three-signal cluster. -/
def oppWatch : EdgeOpportunity :=
  ⟨clusterSmall, market0, "YES", 0.6, 0.3, 0.3, 0.5, "price discrepancy"⟩

/-- Opportunity with a qualifying edge score on the five-signal cluster. -/
def oppTrade : EdgeOpportunity :=
  ⟨clusterBig, market0, "YES", 0.6, 0.3, 0.3, 0.4, "price discrepancy"⟩

/-- A healthy portfolio with no open positions. -/
def portfolio0 : PortfolioState :=
  ⟨10000, 10000, 10000, [], 0, 0, 1, 0, 0, 0, 0⟩

/-- A drawn-down portfolio: bankroll at 40 percent of the configured one. -/
def portfolioLow : PortfolioState :=
  ⟨4000, 10000, 4000, [], -6000, -60, 9, 12, 8, 2, 6⟩

/-- A portfolio whose free cash is exactly the reserve, so no trade can be
funded. -/
def portfolioTight : PortfolioState :=
  ⟨10000, 10000, 2000, [], 0, 0, 3, 4, 1, 1, 0⟩

/-- An arbitration response voting TRADE. -/
def arbTrade : ArbResp := ⟨"TRADE", "clear discrepancy", none, none⟩

/-- An arbitration response voting PASS. -/
def arbPass : ArbResp := ⟨"PASS", "already priced in", some "no edge", none⟩

-- ---- Helper lemmas ----

theorem jsRound_nonneg {x : ℚ} (hx : 0 ≤ x) : 0 ≤ jsRound x := by
  unfold jsRound
  have : (0 : ℤ) ≤ ⌊x + 1/2⌋ := Int.floor_nonneg.mpr (by linarith)
  exact_mod_cast this

theorem jsRound_le_add_half (x : ℚ) : jsRound x ≤ x + 1/2 := by
  unfold jsRound
  exact_mod_cast Int.floor_le (x + 1/2)

theorem calculatePositionSize_nonneg (opp : EdgeOpportunity)
    (p : PortfolioState) (cfg : CampaignConfig)
    (h : 0 ≤ cfg.minPositionUsd) :
    0 ≤ calculatePositionSize opp p cfg := by
  simp only [calculatePositionSize]
  split_ifs with h1 h2
  · exact le_refl 0
  · exact le_refl 0
  · push_neg at h1 h2
    exact jsRound_nonneg (le_min (le_trans h h1) (le_trans h h2))

theorem pickBest_cons (a x : Engagement) (xs : List Engagement) :
    pickBest a (x :: xs)
      = pickBest (if engagementRaw a < engagementRaw x then x else a) xs := rfl

theorem pickBest_mem (a : Engagement) (l : List Engagement) :
    pickBest a l ∈ a :: l := by
  induction l generalizing a with
  | nil => simp [pickBest]
  | cons x xs ih =>
    rw [pickBest_cons]
    have h := ih (if engagementRaw a < engagementRaw x then x else a)
    rcases List.mem_cons.mp h with h1 | h1
    · rw [h1]
      by_cases hc : engagementRaw a < engagementRaw x
      · simp [hc]
      · simp [hc]
    · exact List.mem_cons_of_mem _ (List.mem_cons_of_mem _ h1)

theorem pickBest_max (a : Engagement) (l : List Engagement) :
    ∀ e ∈ a :: l, engagementRaw e ≤ engagementRaw (pickBest a l) := by
  induction l generalizing a with
  | nil =>
    intro e he
    rcases List.mem_cons.mp he with rfl | habs
    · simp [pickBest]
    · exact absurd habs (List.not_mem_nil e)
  | cons x xs ih =>
    intro e he
    rw [pickBest_cons]
    have hab : engagementRaw a
        ≤ engagementRaw (if engagementRaw a < engagementRaw x then x else a) := by
      split_ifs with hc
      · exact le_of_lt hc
      · exact le_refl _
    have hxb : engagementRaw x
        ≤ engagementRaw (if engagementRaw a < engagementRaw x then x else a) := by
      split_ifs with hc
      · exact le_refl _
      · exact not_lt.mp hc
    have hbB := ih (if engagementRaw a < engagementRaw x then x else a)
      _ (List.mem_cons_self _ _)
    rcases List.mem_cons.mp he with rfl | he1
    · exact le_trans hab hbB
    · rcases List.mem_cons.mp he1 with rfl | he2
      · exact le_trans hxb hbB
      · exact ih _ e (List.mem_cons_of_mem _ he2)

theorem mapOrThrow_ok_length {α β ε : Type} (f : α → Except ε β)
    (l : List α) (out : List β) (h : mapOrThrow f l = .ok out) :
    out.length = l.length := by
  induction l generalizing out with
  | nil =>
    simp only [mapOrThrow] at h
    cases h
    rfl
  | cons a l ih =>
    simp only [mapOrThrow] at h
    cases hfa : f a with
    | error e => rw [hfa] at h; cases h
    | ok b =>
      rw [hfa] at h
      cases hml : mapOrThrow f l with
      | error e => rw [hml] at h; cases h
      | ok bs =>
        rw [hml] at h
        cases h
        simp [ih bs hml]

theorem mapOrThrow_ok_getElem {α β ε : Type} (f : α → Except ε β)
    (l : List α) (out : List β) (h : mapOrThrow f l = .ok out) (k : ℕ) :
    (l.get? k).map f = (out.get? k).map Except.ok := by
  induction l generalizing out k with
  | nil =>
    simp only [mapOrThrow] at h
    cases h
    simp
  | cons a l ih =>
    simp only [mapOrThrow] at h
    cases hfa : f a with
    | error e => rw [hfa] at h; cases h
    | ok b =>
      rw [hfa] at h
      cases hml : mapOrThrow f l with
      | error e => rw [hml] at h; cases h
      | ok bs =>
        rw [hml] at h
        cases h
        cases k with
        | zero => simp [hfa]
        | succ k => simpa using ih bs hml k

theorem length_filterMap_eq_countP {α β : Type} (f : α → Option β)
    (l : List α) :
    (l.filterMap f).length = l.countP (fun a => (f a).isSome) := by
  induction l with
  | nil => simp
  | cons a l ih =>
    cases hfa : f a with
    | none => simp [List.filterMap_cons, hfa, List.countP_cons, ih]
    | some b => simp [List.filterMap_cons, hfa, List.countP_cons, ih]

theorem mkOpportunity_isSome (cluster : TopicCluster) (w : ℚ)
    (tm : List PolymarketMarket) (m : MarketMapping) :
    (mkOpportunity cluster w tm m).isSome
      = (jsElem tm m.market_index).isSome := by
  unfold mkOpportunity
  cases jsElem tm m.market_index <;> simp

-- ---- Extra fixtures for the rounding counterexample ----

/-- Config whose caps meet at a fractional dollar amount. -/
def cfgRound : CampaignConfig :=
  { DEFAULT_CONFIG with
    basePositionPct := 0.05
    maxPositionPct := 0.05
    cashReservePct := 0 }

/-- Portfolio whose bankroll makes the position cap fractional. -/
def portRound : PortfolioState :=
  ⟨9992, 10000, 20000, [], 0, 0, 1, 0, 0, 0, 0⟩

/-- Opportunity with moderate conviction for the rounding counterexample. -/
def oppRound : EdgeOpportunity :=
  ⟨clusterBig, market0, "YES", 0.6, 0.3, 0.3, 0.6, "price discrepancy"⟩

-- ---- Claim theorems ----

/-- C6: checkPortfolioConstraints returns allowed false whenever the live
bankroll is at most the originally configured bankroll times the drawdown
breaker fraction, for every portfolio, so regardless of how many positions
are open. -/
theorem C6_drawdown_breaker_rejects (opp : EdgeOpportunity)
    (p : PortfolioState) (cfg : CampaignConfig)
    (h : p.bankroll ≤ cfg.bankroll * cfg.drawdownBreakerPct) :
    (checkPortfolioConstraints opp p cfg).allowed = false := by
  simp only [checkPortfolioConstraints]
  split_ifs with h1 <;> rfl

/-- Witness for C6 at a drawn-down portfolio with zero open positions. -/
theorem C6_witness :
    portfolioLow.bankroll
      ≤ DEFAULT_CONFIG.bankroll * DEFAULT_CONFIG.drawdownBreakerPct
    ∧ (checkPortfolioConstraints oppWatch portfolioLow DEFAULT_CONFIG).allowed
      = false :=
  ⟨by norm_num [portfolioLow, DEFAULT_CONFIG],
   C6_drawdown_breaker_rejects oppWatch portfolioLow DEFAULT_CONFIG
     (by norm_num [portfolioLow, DEFAULT_CONFIG])⟩

/-- C5 counterexample: with the caps meeting at 499.6 dollars the returned
size is the rounded value 500, which strictly exceeds the cap
min of maxPositionPct times bankroll and cash minus reserve, even though
minPositionUsd is positive; the claim that a nonzero size never exceeds
that min is therefore false on the code. -/
theorem C5_counterexample :
    calculatePositionSize oppRound portRound cfgRound = 500
    ∧ min (cfgRound.maxPositionPct * portRound.bankroll)
        (portRound.cashAvailable - cfgRound.cashReservePct * portRound.bankroll)
      < 500
    ∧ 0 < cfgRound.minPositionUsd := by
  refine ⟨?_, ?_, ?_⟩
  · norm_num [calculatePositionSize, convictionPct, getConvictionLevel,
      jsRound, cfgRound, portRound, oppRound, DEFAULT_CONFIG]
  · norm_num [cfgRound, portRound, DEFAULT_CONFIG]
  · norm_num [cfgRound, DEFAULT_CONFIG]

/-- C5 (amended): calculatePositionSize returns exactly 0 when the
conviction-scaled size capped by maxPositionPct falls below minPositionUsd,
and a nonzero result is the JavaScript rounding of a value that does not
exceed min of maxPositionPct times bankroll and cash minus reserve, so the
result can exceed that min only by the rounding, at most one half. -/
theorem C5_size_zero_below_min_and_capped (opp : EdgeOpportunity)
    (p : PortfolioState) (cfg : CampaignConfig)
    (h : 0 < cfg.minPositionUsd) :
    (min (p.bankroll * convictionPct cfg opp.edgeScore)
        (p.bankroll * cfg.maxPositionPct) < cfg.minPositionUsd →
      calculatePositionSize opp p cfg = 0)
    ∧ (calculatePositionSize opp p cfg ≠ 0 →
      calculatePositionSize opp p cfg
        ≤ min (cfg.maxPositionPct * p.bankroll)
            (p.cashAvailable - cfg.cashReservePct * p.bankroll) + 1/2) := by
  constructor
  · intro hlt
    simp only [calculatePositionSize]
    rw [if_pos hlt]
  · intro hne
    simp only [calculatePositionSize] at hne ⊢
    split_ifs at hne ⊢ with h1 h2
    · exact absurd rfl hne
    · exact absurd rfl hne
    · have t1 := min_le_left
        (min (p.bankroll * convictionPct cfg opp.edgeScore)
          (p.bankroll * cfg.maxPositionPct))
        (p.cashAvailable - p.bankroll * cfg.cashReservePct)
      have t2 := min_le_right
        (min (p.bankroll * convictionPct cfg opp.edgeScore)
          (p.bankroll * cfg.maxPositionPct))
        (p.cashAvailable - p.bankroll * cfg.cashReservePct)
      have t3 := min_le_right (p.bankroll * convictionPct cfg opp.edgeScore)
        (p.bankroll * cfg.maxPositionPct)
      have t4 := jsRound_le_add_half
        (min (min (p.bankroll * convictionPct cfg opp.edgeScore)
          (p.bankroll * cfg.maxPositionPct))
          (p.cashAvailable - p.bankroll * cfg.cashReservePct))
      have t5 : min (cfg.maxPositionPct * p.bankroll)
          (p.cashAvailable - cfg.cashReservePct * p.bankroll)
          = min (p.bankroll * cfg.maxPositionPct)
            (p.cashAvailable - p.bankroll * cfg.cashReservePct) := by
        rw [mul_comm cfg.maxPositionPct p.bankroll,
          mul_comm cfg.cashReservePct p.bankroll]
      rw [t5]
      have t6 := le_min (le_trans t1 t3) t2
      linarith

/-- Witness for C5 at the scenario from the spec: bankroll 10000, high
conviction, raw size 400, within all caps. -/
theorem C5_witness :
    0 < DEFAULT_CONFIG.minPositionUsd
    ∧ calculatePositionSize oppTrade portfolio0 DEFAULT_CONFIG ≠ 0
    ∧ calculatePositionSize oppTrade portfolio0 DEFAULT_CONFIG
      ≤ min (DEFAULT_CONFIG.maxPositionPct * portfolio0.bankroll)
          (portfolio0.cashAvailable
            - DEFAULT_CONFIG.cashReservePct * portfolio0.bankroll) + 1/2 := by
  have hz : calculatePositionSize oppTrade portfolio0 DEFAULT_CONFIG ≠ 0 := by
    norm_num [calculatePositionSize, convictionPct, getConvictionLevel,
      jsRound, oppTrade, portfolio0, DEFAULT_CONFIG]
  exact ⟨by norm_num [DEFAULT_CONFIG], hz,
    (C5_size_zero_below_min_and_capped oppTrade portfolio0 DEFAULT_CONFIG
      (by norm_num [DEFAULT_CONFIG])).2 hz⟩

/-- C7 counterexample: the entry price 0 lies in the closed interval from 0
to 1, yet with the default configuration the YES take profit at entry 0 is
min of 0.99 and 0, which is 0 and hence not strictly inside the open
interval. -/
theorem C7_counterexample :
    (calculateExitLevels 0 "YES" DEFAULT_CONFIG).takeProfit = 0 := by
  norm_num [calculateExitLevels, DEFAULT_CONFIG, min_def]

/-- C7 (amended): for every direction string and every entry price strictly
inside the half-open interval from 0 exclusive to 1 inclusive, and for a
configuration with positive stopLossPercent and takeProfitMultiple above 1,
both exit levels computed by the stated YES and inverted NO formulas lie
strictly within the open interval from 0 to 1.  At entry price exactly 0
the YES take profit and the NO stop loss are 0, so the open-interval bound
requires a strictly positive entry. -/
theorem C7_exit_levels_open_interval (direction : String) (entry : ℚ)
    (cfg : CampaignConfig) (h1 : 0 < entry) (h2 : entry ≤ 1)
    (h3 : 0 < cfg.stopLossPercent) (h4 : 1 < cfg.takeProfitMultiple) :
    0 < (calculateExitLevels entry direction cfg).stopLoss
    ∧ (calculateExitLevels entry direction cfg).stopLoss < 1
    ∧ 0 < (calculateExitLevels entry direction cfg).takeProfit
    ∧ (calculateExitLevels entry direction cfg).takeProfit < 1 := by
  simp only [calculateExitLevels]
  split_ifs with hd
  · refine ⟨?_, ?_, ?_, ?_⟩
    · exact lt_max_iff.mpr (Or.inl (by norm_num))
    · apply max_lt (by norm_num)
      have hexp : entry * (1 - cfg.stopLossPercent)
          = entry - entry * cfg.stopLossPercent := by ring
      rw [hexp]
      linarith [mul_pos h1 h3]
    · exact lt_min_iff.mpr ⟨by norm_num, mul_pos h1 (by linarith)⟩
    · exact lt_of_le_of_lt (min_le_left _ _) (by norm_num)
  · refine ⟨?_, ?_, ?_, ?_⟩
    · exact lt_min_iff.mpr ⟨by norm_num, mul_pos h1 (by linarith)⟩
    · exact lt_of_le_of_lt (min_le_left _ _) (by norm_num)
    · exact lt_max_iff.mpr (Or.inl (by norm_num))
    · apply max_lt (by norm_num)
      rw [div_lt_one (by linarith : (0:ℚ) < cfg.takeProfitMultiple)]
      linarith

/-- Witness for C7 at entry one half in the YES direction under the default
configuration. -/
theorem C7_witness :
    (0:ℚ) < 1/2 ∧ (1/2:ℚ) ≤ 1
    ∧ 0 < DEFAULT_CONFIG.stopLossPercent
    ∧ 1 < DEFAULT_CONFIG.takeProfitMultiple
    ∧ 0 < (calculateExitLevels (1/2) "YES" DEFAULT_CONFIG).stopLoss
    ∧ (calculateExitLevels (1/2) "YES" DEFAULT_CONFIG).takeProfit < 1 := by
  have h := C7_exit_levels_open_interval "YES" (1/2) DEFAULT_CONFIG
    (by norm_num) (by norm_num) (by norm_num [DEFAULT_CONFIG])
    (by norm_num [DEFAULT_CONFIG])
  exact ⟨by norm_num, by norm_num, by norm_num [DEFAULT_CONFIG],
    by norm_num [DEFAULT_CONFIG], h.1, h.2.2.2⟩

/-- C1: for every configuration with a nonnegative minimum position, every
opportunity, portfolio and arbitration response, the evaluated order has
decision TRADE exactly when its size is strictly positive, and every order
whose decision is not TRADE, in particular every PASS and WATCH order, has
size 0.  An arbitration TRADE whose computed size is 0 is downgraded to
PASS. -/
theorem C1_trade_iff_positive_size (cfg : CampaignConfig)
    (opp : EdgeOpportunity) (p : PortfolioState) (parsed : ArbResp)
    (h : 0 ≤ cfg.minPositionUsd) :
    ((SanityChecker.evaluate cfg opp p parsed).decision = "TRADE"
      ↔ 0 < (SanityChecker.evaluate cfg opp p parsed).size)
    ∧ ((SanityChecker.evaluate cfg opp p parsed).decision ≠ "TRADE"
      → (SanityChecker.evaluate cfg opp p parsed).size = 0) := by
  have hnn := calculatePositionSize_nonneg opp p cfg h
  by_cases hA : (checkPortfolioConstraints opp p cfg).allowed = true
  · by_cases hE : opp.edgeScore < cfg.minEdgeScore
    · simp [SanityChecker.evaluate, hA, hE]
    · by_cases hS : opp.cluster.signalCount < cfg.minSignalsToAct
      · simp [SanityChecker.evaluate, hA, hE, hS]
      · by_cases hd : parsed.decision = "TRADE"
        · by_cases hz : calculatePositionSize opp p cfg = 0
          · simp [SanityChecker.evaluate, hA, hE, hS, hd, hz]
          · have hpos : 0 < calculatePositionSize opp p cfg :=
              lt_of_le_of_ne hnn (Ne.symm hz)
            simp [SanityChecker.evaluate, hA, hE, hS, hd, hz, hpos]
        · simp [SanityChecker.evaluate, hA, hE, hS, hd]
  · simp [SanityChecker.evaluate, hA]

/-- Witness for C1 at a TRADE vote with a funded portfolio: the order is a
TRADE with positive size. -/
theorem C1_witness :
    (0:ℚ) ≤ DEFAULT_CONFIG.minPositionUsd
    ∧ (((SanityChecker.evaluate DEFAULT_CONFIG oppTrade portfolio0 arbTrade).decision
        = "TRADE")
      ↔ 0 < (SanityChecker.evaluate DEFAULT_CONFIG oppTrade portfolio0 arbTrade).size) :=
  ⟨by norm_num [DEFAULT_CONFIG],
   (C1_trade_iff_positive_size DEFAULT_CONFIG oppTrade portfolio0 arbTrade
     (by norm_num [DEFAULT_CONFIG])).1⟩

/-- C9: when portfolio constraints allow the trade, the edge score is not
below the minimum, and the cluster signal count is below minSignalsToAct,
evaluate returns the WATCH order with size 0 and a generated watch
condition, and the result is the same explicit record for every arbitration
response, so the arbitration collaborator cannot influence it. -/
theorem C9_watch_short_circuit (cfg : CampaignConfig) (opp : EdgeOpportunity)
    (p : PortfolioState)
    (h1 : (checkPortfolioConstraints opp p cfg).allowed = true)
    (h2 : ¬ opp.edgeScore < cfg.minEdgeScore)
    (h3 : opp.cluster.signalCount < cfg.minSignalsToAct) :
    ∀ parsed : ArbResp, SanityChecker.evaluate cfg opp p parsed =
      { decision := "WATCH"
        market := opp.market
        direction := opp.direction
        size := 0
        entryPrice := opp.currentMarketPrice
        stopLoss := 0
        takeProfit := 0
        edgeScore := opp.edgeScore
        reasoning := "Only " ++ numToString opp.cluster.signalCount
          ++ " signals — need at least " ++ numToString cfg.minSignalsToAct
          ++ " before acting"
        contributingSignals := opp.cluster.signals
        watchCondition := some ("Waiting for more signals on \""
          ++ opp.cluster.name ++ "\"")
        passReason := none } := by
  intro parsed
  simp [SanityChecker.evaluate, h1, h2, h3]

/-- Witness for C9: a three-signal cluster under the default five-signal
minimum produces the identical WATCH order for a TRADE vote and a PASS
vote. -/
theorem C9_witness :
    SanityChecker.evaluate DEFAULT_CONFIG oppWatch portfolio0 arbTrade
      = SanityChecker.evaluate DEFAULT_CONFIG oppWatch portfolio0 arbPass
    ∧ (SanityChecker.evaluate DEFAULT_CONFIG oppWatch portfolio0 arbTrade).decision
      = "WATCH"
    ∧ (SanityChecker.evaluate DEFAULT_CONFIG oppWatch portfolio0 arbTrade).size = 0
    ∧ (SanityChecker.evaluate DEFAULT_CONFIG oppWatch portfolio0 arbTrade).watchCondition.isSome
      = true := by
  have h1 : (checkPortfolioConstraints oppWatch portfolio0 DEFAULT_CONFIG).allowed
      = true := by
    norm_num [checkPortfolioConstraints, oppWatch, portfolio0, DEFAULT_CONFIG]
  have h2 : ¬ oppWatch.edgeScore < DEFAULT_CONFIG.minEdgeScore := by
    norm_num [oppWatch, DEFAULT_CONFIG]
  have h3 : oppWatch.cluster.signalCount < DEFAULT_CONFIG.minSignalsToAct := by
    norm_num [oppWatch, clusterSmall, DEFAULT_CONFIG]
  have h := C9_watch_short_circuit DEFAULT_CONFIG oppWatch portfolio0 h1 h2 h3
  refine ⟨(h arbTrade).trans (h arbPass).symm, ?_, ?_, ?_⟩
  · rw [h arbTrade]
  · rw [h arbTrade]
  · rw [h arbTrade]
    rfl

/-- C10: on the arbitration path, a TRADE vote whose computed size is 0 is
downgraded to a PASS order that retains the stop loss and take profit from
calculateExitLevels at the entry price, while every order that does not
come from a TRADE vote on the arbitration path has a non-TRADE decision
and stop loss and take profit both 0. -/
theorem C10_downgraded_pass_keeps_exit_levels (cfg : CampaignConfig)
    (opp : EdgeOpportunity) (p : PortfolioState) :
    (∀ parsed : ArbResp,
      (checkPortfolioConstraints opp p cfg).allowed = true →
      ¬ opp.edgeScore < cfg.minEdgeScore →
      ¬ opp.cluster.signalCount < cfg.minSignalsToAct →
      parsed.decision = "TRADE" →
      calculatePositionSize opp p cfg = 0 →
      (SanityChecker.evaluate cfg opp p parsed).decision = "PASS"
      ∧ (SanityChecker.evaluate cfg opp p parsed).stopLoss
          = (calculateExitLevels opp.currentMarketPrice opp.direction cfg).stopLoss
      ∧ (SanityChecker.evaluate cfg opp p parsed).takeProfit
          = (calculateExitLevels opp.currentMarketPrice opp.direction cfg).takeProfit)
    ∧ (∀ parsed : ArbResp,
      ¬ ((checkPortfolioConstraints opp p cfg).allowed = true
          ∧ ¬ opp.edgeScore < cfg.minEdgeScore
          ∧ ¬ opp.cluster.signalCount < cfg.minSignalsToAct
          ∧ parsed.decision = "TRADE") →
      (SanityChecker.evaluate cfg opp p parsed).decision ≠ "TRADE"
      ∧ (SanityChecker.evaluate cfg opp p parsed).stopLoss = 0
      ∧ (SanityChecker.evaluate cfg opp p parsed).takeProfit = 0) := by
  constructor
  · intro parsed hA hE hS hd hz
    refine ⟨?_, ?_, ?_⟩ <;> simp [SanityChecker.evaluate, hA, hE, hS, hd, hz]
  · intro parsed hn
    by_cases hA : (checkPortfolioConstraints opp p cfg).allowed = true
    · by_cases hE : opp.edgeScore < cfg.minEdgeScore
      · refine ⟨?_, ?_, ?_⟩ <;> simp [SanityChecker.evaluate, hA, hE]
      · by_cases hS : opp.cluster.signalCount < cfg.minSignalsToAct
        · refine ⟨?_, ?_, ?_⟩ <;> simp [SanityChecker.evaluate, hA, hE, hS]
        · have hd : ¬ parsed.decision = "TRADE" := fun hd => hn ⟨hA, hE, hS, hd⟩
          refine ⟨?_, ?_, ?_⟩ <;> simp [SanityChecker.evaluate, hA, hE, hS, hd]
    · refine ⟨?_, ?_, ?_⟩ <;> simp [SanityChecker.evaluate, hA]

/-- Witness for C10: with free cash exactly at the reserve the computed
size is 0 and a TRADE vote yields a PASS order whose exit levels equal the
calculateExitLevels values, while a PASS vote yields zero exit levels. -/
theorem C10_witness :
    (SanityChecker.evaluate DEFAULT_CONFIG oppTrade portfolioTight arbTrade).decision
      = "PASS"
    ∧ (SanityChecker.evaluate DEFAULT_CONFIG oppTrade portfolioTight arbTrade).stopLoss
      = (calculateExitLevels oppTrade.currentMarketPrice oppTrade.direction
          DEFAULT_CONFIG).stopLoss
    ∧ (SanityChecker.evaluate DEFAULT_CONFIG oppTrade portfolioTight arbTrade).takeProfit
      = (calculateExitLevels oppTrade.currentMarketPrice oppTrade.direction
          DEFAULT_CONFIG).takeProfit
    ∧ (SanityChecker.evaluate DEFAULT_CONFIG oppTrade portfolioTight arbPass).decision
      ≠ "TRADE"
    ∧ (SanityChecker.evaluate DEFAULT_CONFIG oppTrade portfolioTight arbPass).stopLoss
      = 0 := by
  have h := C10_downgraded_pass_keeps_exit_levels DEFAULT_CONFIG oppTrade portfolioTight
  have hA : (checkPortfolioConstraints oppTrade portfolioTight DEFAULT_CONFIG).allowed
      = true := by
    norm_num [checkPortfolioConstraints, oppTrade, portfolioTight, DEFAULT_CONFIG]
  have hE : ¬ oppTrade.edgeScore < DEFAULT_CONFIG.minEdgeScore := by
    norm_num [oppTrade, DEFAULT_CONFIG]
  have hS : ¬ oppTrade.cluster.signalCount < DEFAULT_CONFIG.minSignalsToAct := by
    norm_num [oppTrade, clusterBig, DEFAULT_CONFIG]
  have hz : calculatePositionSize oppTrade portfolioTight DEFAULT_CONFIG = 0 := by
    norm_num [calculatePositionSize, convictionPct, getConvictionLevel,
      oppTrade, portfolioTight, DEFAULT_CONFIG]
  obtain ⟨d1, s1, t1⟩ := h.1 arbTrade hA hE hS rfl hz
  obtain ⟨d2, s2, _⟩ := h.2 arbPass (fun hx => by simp [arbPass] at hx)
  exact ⟨d1, s1, t1, d2, s2⟩

/-- C8: for every mention and non-noise classification, enrichMention
returns a signal whose weight is engagementWeight of an engagement source
that is one of the own, closest-parent and quoted engagements and has the
highest raw score likes plus 2 times reshares plus 3 times quote shares
among them. -/
theorem C8_weight_from_best_source (m : RawMention) (parsed : EnrichResp)
    (now : ℚ) (h1 : parsed.is_noise = false)
    (h2 : parsed.signal_type ≠ "noise") :
    ∃ sig, enrichMention m parsed now = some sig
      ∧ bestEngagement m ∈ engagementSources m
      ∧ (∀ e ∈ engagementSources m,
          engagementRaw e ≤ engagementRaw (bestEngagement m))
      ∧ sig.weight = engagementWeight (bestEngagement m) := by
  have hcond : ¬ (parsed.is_noise = true ∨ parsed.signal_type = "noise") := by
    simp [h1, h2]
  refine ⟨{ id := "sig"
            raw := m
            signalType := parsed.signal_type
            coreClaim := parsed.core_claim
            urgency := parsed.urgency
            topics := parsed.topics.getD []
            corroboration := []
            weight := engagementWeight (bestEngagement m)
            processedAt := now }, ?_, ?_, ?_, rfl⟩
  · unfold enrichMention
    rw [if_neg hcond]
  · simp only [engagementSources, bestEngagement]
    exact pickBest_mem _ _
  · simp only [engagementSources, bestEngagement]
    exact pickBest_max _ _

/-- Witness for C8 at a mention whose parent tweet has the dominant
engagement and a non-noise news classification. -/
theorem C8_witness :
    enrichNews.is_noise = false
    ∧ enrichNews.signal_type ≠ "noise"
    ∧ ∃ sig, enrichMention mention0 enrichNews 10 = some sig
        ∧ bestEngagement mention0 ∈ engagementSources mention0
        ∧ (∀ e ∈ engagementSources mention0,
            engagementRaw e ≤ engagementRaw (bestEngagement mention0))
        ∧ sig.weight = engagementWeight (bestEngagement mention0) :=
  ⟨rfl, by decide,
   C8_weight_from_best_source mention0 enrichNews 10 rfl (by decide)⟩

-- ---- Fixtures for the clustering and edge-scoring claims ----

/-- A grouping response in which both clusters claim indices 0 and 1. -/
def rspDup : ClustersResp :=
  ⟨some [⟨"Cluster one", some [0, 1], "bullish", 0.9⟩,
         ⟨"Cluster two", some [0, 1], "bearish", 0.8⟩]⟩

/-- A grouping response with a single one-member cluster. -/
def rspSingle : ClustersResp :=
  ⟨some [⟨"Lonely topic", some [0], "mixed", 0.5⟩]⟩

/-- The concrete cluster list obtained from the duplicated response. -/
def c3out : List TopicCluster :=
  (clusterSignals [sigA, sigB] (.ok rspDup) 0).toOption.getD []

/-- The concrete cluster list obtained from the one-member response. -/
def c4out : List TopicCluster :=
  (clusterSignals [sigA, sigB] (.ok rspSingle) 0).toOption.getD []

/-- C2 counterexample: on output that JSON.parse cannot parse, findEdge
propagates the thrown parse error instead of returning an empty
opportunity list, so the claim that malformed collaborator output is
recovered inside findEdge is false on the code. -/
theorem C2_counterexample :
    findEdge [market0] clusterSmall 1 (.error "SyntaxError: Unexpected token")
      = .error "SyntaxError: Unexpected token" := rfl

/-- C2 (amended): when the collaborator output parses, findEdge does not
throw: every mapping whose market index does not resolve into the fetched
top markets is skipped and every resolvable mapping contributes exactly one
opportunity.  Non-parseable output, however, makes findEdge throw: the
JSON.parse exception propagates to the caller and aborts the tick there. -/
theorem C2_resolvable_mappings_counted (markets : List PolymarketMarket)
    (cluster : TopicCluster) (w : ℚ) (r : MappingsResp) :
    ∃ l, findEdge markets cluster w (.ok r) = .ok l
      ∧ l.length = (r.mappings.getD []).countP
          (fun m => (jsElem (markets.take 50) m.market_index).isSome) := by
  refine ⟨_, rfl, ?_⟩
  rw [(List.mergeSort_perm _ _).length_eq, length_filterMap_eq_countP]
  simp only [mkOpportunity_isSome]

/-- C3 counterexample: with two input signals and a grouping response in
which both clusters claim indices 0 and 1, both returned clusters contain
both signals (projected to their core claims), so a duplicated index is
not ignored after the first cluster claims it. -/
theorem C3_counterexample :
    (clusterSignals [sigA, sigB] (.ok rspDup) 0).map
        (fun cs => cs.map (fun c => c.signals.map (fun s => s.coreClaim)))
      = .ok [["A", "B"], ["A", "B"]] := rfl

/-- C3 (amended): clusterSignals applies no cross-cluster deduplication.
The membership of each returned cluster is exactly the resolved membership
of the corresponding collaborator cluster, independent of which indices
earlier clusters claimed, so an index claimed by several clusters appears
in every one of them.  Only indices at least the signal count are
filtered. -/
theorem C3_no_dedup_membership (signals : List EnrichedSignal)
    (r : ClustersResp) (now : ℚ) (out : List TopicCluster)
    (h2 : 2 ≤ signals.length)
    (h : clusterSignals signals (.ok r) now = .ok out) (k : ℕ) :
    (out.get? k).map (fun c => c.signals)
      = ((r.clusters.getD []).get? k).bind (resolvedMembers signals) := by
  have hnl : ¬ signals.length < 2 := not_lt.mpr h2
  simp only [clusterSignals, hnl, if_false] at h
  have hg := mapOrThrow_ok_getElem _ _ _ h k
  cases hck : (r.clusters.getD []).get? k with
  | none =>
    rw [hck] at hg
    simp only [Option.map_none'] at hg
    cases hok : out.get? k with
    | none => simp [hok]
    | some cl => rw [hok] at hg; simp at hg
  | some c =>
    rw [hck] at hg
    cases hok : out.get? k with
    | none => rw [hok] at hg; simp at hg
    | some cl =>
      rw [hok] at hg
      simp only [Option.map_some'] at hg
      have hbc : buildCluster signals now c = Except.ok cl := Option.some.inj hg
      cases hrm : resolvedMembers signals c with
      | none => simp [buildCluster, hrm] at hbc
      | some members =>
        simp only [buildCluster, hrm] at hbc
        have hcl : cl.signals = members := by
          cases hbc
          rfl
        simp [hok, hck, hrm, hcl]

/-- Witness for C3 (amended) at the duplicated response: the second output
cluster keeps the duplicated members of the second collaborator cluster. -/
theorem C3_witness :
    2 ≤ ([sigA, sigB] : List EnrichedSignal).length
    ∧ clusterSignals [sigA, sigB] (.ok rspDup) 0 = .ok c3out
    ∧ (c3out.get? 1).map (fun c => c.signals)
      = ((rspDup.clusters.getD []).get? 1).bind (resolvedMembers [sigA, sigB]) :=
  ⟨by decide, rfl,
   C3_no_dedup_membership [sigA, sigB] rspDup 0 c3out (by decide) rfl 1⟩

/-- C4 counterexample: with two input signals and a collaborator cluster
claiming the single index 0, clusterSignals returns that cluster with one
member, so clusters with fewer than 2 resolved signals are not dropped. -/
theorem C4_counterexample :
    (clusterSignals [sigA, sigB] (.ok rspSingle) 0).map
        (fun cs => cs.map (fun c => c.signals.length))
      = .ok [1] := rfl

/-- C4 (amended): with fewer than 2 input signals clusterSignals returns
the empty list (before even looking at the collaborator response), and
otherwise every collaborator cluster yields exactly one returned cluster:
no cluster is dropped, however small its resolved membership. -/
theorem C4_no_minimum_membership_drop (signals : List EnrichedSignal)
    (resp : Except String ClustersResp) (r : ClustersResp) (now : ℚ)
    (out : List TopicCluster) :
    (signals.length < 2 → clusterSignals signals resp now = .ok [])
    ∧ (2 ≤ signals.length → clusterSignals signals (.ok r) now = .ok out
        → out.length = (r.clusters.getD []).length) := by
  constructor
  · intro hlt
    simp [clusterSignals, hlt]
  · intro h2 h
    have hnl : ¬ signals.length < 2 := not_lt.mpr h2
    simp only [clusterSignals, hnl, if_false] at h
    exact mapOrThrow_ok_length _ _ _ h

/-- Witness for C4 (amended): one signal gives the empty list even for an
unparseable response, and the one-member response gives exactly one
cluster per collaborator cluster. -/
theorem C4_witness :
    (([sigA] : List EnrichedSignal).length < 2
      ∧ clusterSignals [sigA] (.error "SyntaxError") 0 = .ok [])
    ∧ (2 ≤ ([sigA, sigB] : List EnrichedSignal).length
      ∧ clusterSignals [sigA, sigB] (.ok rspSingle) 0 = .ok c4out
      ∧ c4out.length = (rspSingle.clusters.getD []).length) :=
  ⟨⟨by decide,
    (C4_no_minimum_membership_drop [sigA] (.error "SyntaxError") ⟨none⟩ 0 []).1
      (by decide)⟩,
   ⟨by decide, rfl,
    (C4_no_minimum_membership_drop [sigA, sigB] (.ok rspSingle) rspSingle 0
      c4out).2 (by decide) rfl⟩⟩
